import Mathlib

set_option linter.unusedVariables false

/-!
Shallow embedding of create_sprite_frames.py.

The script consists of a hard-coded creature table, a base path, two
functions (get_frames_from_folder and create_sprite_frames) and a module
top level that prints a few notices and one line per creature.

Modelling conventions:
  - A directory listing is a List String of filenames.  The filesystem is
    an oracle of type String -> Except OSError (List String): listing a
    path either yields the filenames or raises (os.listdir can raise, and
    neither function catches anything, so errors are propagated values).
  - Python str.startswith is startswith below, a code-point prefix test.
  - Python sorted is pysorted below: the unique stable sort by the
    code-point lexicographic order lexle (insertion sort realises it).
  - print calls are collected as lists of strings / console effects.
  - The module top level consults neither sys.argv, nor os.environ, nor
    the filesystem, so script_prints ignores those three inputs; they are
    kept as parameters so that independence from them is expressible.
-/

/-- Errors os.listdir may raise; nothing in the script catches them. -/
inductive OSError where
  | fileNotFound : String → OSError
  | permissionDenied : String → OSError
deriving DecidableEq, Repr

/-- Code-point prefix test on character lists (Python str.startswith). -/
def isPrefixList : List Char → List Char → Bool
  | [], _ => true
  | _ :: _, [] => false
  | a :: as, b :: bs => a == b && isPrefixList as bs

/-- Python f.startswith(p): p is a code-point prefix of f. -/
def startswith (f p : String) : Bool := isPrefixList p.data f.data

/-- Code-point lexicographic order on character lists, as Python compares
strings. -/
def lexle : List Char → List Char → Bool
  | [], _ => true
  | _ :: _, [] => false
  | a :: as, b :: bs =>
    if a.toNat = b.toNat then lexle as bs else decide (a.toNat < b.toNat)

/-- The order Python sorted uses on strings. -/
def strleP (a b : String) : Prop := lexle a.data b.data = true

instance : DecidableRel strleP := fun a b => inferInstanceAs (Decidable (_ = true))

/-- Python sorted on a list of strings. -/
def pysorted (l : List String) : List String := l.insertionSort strleP

/-- One comprehension sorted([f for f in files if f.startswith(p)]). -/
def listFrames (files : List String) (p : String) : List String :=
  pysorted (files.filter (fun f => startswith f p))

/-- The hard-coded creature table, folder_name -> (display_name, enum_name),
in the insertion order of the Python dict literal. -/
def CREATURES : List (String × String × String) := [
  ("guard_robot", "Guard Robot", "GUARD_ROBOT"),
  ("fire_pyrope", "Fire Pyrope", "FIRE_PYROPE"),
  ("illusionary_raccoon", "Illusionary Raccoon", "ILLUSIONARY_RACCOON"),
  ("ore_muncher", "Ore Muncher", "ORE_MUNCHER"),
  ("neon_bat", "Neon Bat", "NEON_BAT"),
  ("toy_trojan", "Toy Trojan", "TOY_TROJAN"),
  ("robo", "Robo", "ROBO"),
  ("froscola", "Froscola", "FROSCOLA"),
  ("grizzly", "Grizzly", "GRIZZLY"),
  ("blazin_sparkinstone_bugs", "Blazin\x27 Sparkinstone Bugs", "BLAZIN_SPARKINSTONE_BUGS"),
  ("stoplight_ghost", "Stoplight Ghost", "STOPLIGHT_GHOST"),
  ("haunted_river_rock", "Haunted River Rock", "HAUNTED_RIVER_ROCK"),
  ("hedgehog", "Hedgehog", "HEDGEHOG"),
  ("delinquent_chick", "Delinquent Chick", "DELINQUENT_CHICK"),
  ("ooze_waste", "Ooze Waste", "OOZE_WASTE"),
  ("krip", "Krip", "KRIP"),
  ("grave_robber_hunting_dog", "Grave Robber\x27s Hunting Dog", "GRAVE_ROBBER_HUNTING_DOG")]

/-- The hard-coded base path constant. -/
def BASE_PATH : String :=
  "C:/Users/purem/OneDrive/Documents/new-game-project/assets/sprites/creatures"

/-- pathlib BASE_PATH / folder: join with a path separator. -/
def pathJoin (base folder : String) : String := base ++ "/" ++ folder

/-- get_frames_from_folder (lines 33-42): list the folder, keep stand_ and
move_ files sorted, and fall back to chase_ files when no move_ file is
present.  An error from the listing propagates (no try, no except).
The source lists the directory once per comprehension; the filesystem
oracle is a fixed snapshot, so one binding stands for the three calls. -/
def get_frames_from_folder (fs : String → Except OSError (List String))
    (folder_path : String) : Except OSError (List String × List String) :=
  match fs folder_path with
  | Except.error e => Except.error e
  | Except.ok files =>
    let stand_frames := listFrames files "stand_"
    let move_frames := listFrames files "move_"
    let move_frames := if move_frames.isEmpty then listFrames files "chase_" else move_frames
    Except.ok (stand_frames, move_frames)

/-- One frame entry string of lines 72-73 (and 85-86, 107-108). -/
def frame_entry (folder_name frame : String) : String :=
  "\x7b\n\"duration\": 1.0,\n\"texture\": ExtResource(\"res://assets/sprites/creatures/"
    ++ folder_name ++ "/" ++ frame ++ "\")\n\x7d"

/-- The idle_anim line list of lines 68-78. -/
def idle_anim (folder_name : String) (stand_frames : List String) : List String :=
  ["\"frames\": [",
   String.intercalate ",\n" (stand_frames.map (frame_entry folder_name)),
   "],", "\"loop\": true,", "\"name\": &\"idle\",", "\"speed\": 8.0"]

/-- The move_anim line list of lines 81-91; the source builds it and then
never uses it. -/
def move_anim (folder_name : String) (move_frames : List String) : List String :=
  ["\"frames\": [",
   String.intercalate ",\n" (move_frames.map (frame_entry folder_name)),
   "],", "\"loop\": true,", "\"name\": &\"walk\",", "\"speed\": 8.0"]

/-- One walk_anim line list of lines 103-113 for a given direction. -/
def walk_anim (folder_name direction : String) (move_frames : List String) : List String :=
  ["\"frames\": [",
   String.intercalate ",\n" (move_frames.map (frame_entry folder_name)),
   "],", "\"loop\": true,", "\"name\": &\"" ++ direction ++ "\",", "\"speed\": 8.0"]

/-- Wrapping of an animation block, line 99 and 114. -/
def anim_block (body : List String) : String :=
  "\x7b\n" ++ String.intercalate "\n" body ++ "\n\x7d"

/-- The local variable lines of create_sprite_frames after lines 54-117 ran:
header lines, then the joined animation blocks (idle plus the four walk
directions), then the closing bracket.  Dead code in the source: the
function discards it and returns None. -/
def resource_lines (folder_name : String) (stand_frames move_frames : List String) :
    List String :=
  let idle := idle_anim folder_name stand_frames
  let mv := move_anim folder_name move_frames
  let animations_data := anim_block idle ::
    (["walk-down", "walk-left", "walk-right", "walk-up"].map
      (fun d => anim_block (walk_anim folder_name d move_frames)))
  ["[gd_resource type=\"SpriteFrames\" format=3]", "", "[resource]",
   "animations = [\x7b", String.intercalate ",\n" animations_data, "\x7d]"]

/-- create_sprite_frames (lines 44-122): returns the list of strings the
call prints and its Python return value.  A listing error propagates; with
empty stand or (post-fallback) move frames it warns and returns None; in
every other case it builds the resource text, discards it, and returns
None (line 122). -/
def create_sprite_frames (fs : String → Except OSError (List String))
    (folder_name display_name enum_name : String) :
    List String × Except OSError (Option String) :=
  let folder_path := pathJoin BASE_PATH folder_name
  match get_frames_from_folder fs folder_path with
  | Except.error e => ([], Except.error e)
  | Except.ok (stand_frames, move_frames) =>
    if stand_frames.isEmpty || move_frames.isEmpty then
      (["Warning: Missing frames for " ++ folder_name], Except.ok none)
    else
      let lines := resource_lines folder_name stand_frames move_frames
      ([], Except.ok none)

/-- The line printed for one creature at line 131. -/
def creatureLine (folder display enumName : String) : String :=
  "  - " ++ display ++ " (" ++ enumName ++ "): " ++ pathJoin BASE_PATH folder

/-- The arguments of the print calls the module top level (lines 127-131)
executes, in order. -/
def module_prints : List String :=
  ["Due to Godot\x27s resource format complexity, SpriteFrames should be created in Godot editor.",
   "However, we can still proceed by updating the global_enums.gd with placeholders.",
   "\nCreatures to add:"] ++
  CREATURES.map (fun c => creatureLine c.1 c.2.1 c.2.2)

/-- Running the script: the top level reads no command-line arguments, no
environment variables and no directory, so the prints are a constant. -/
def script_prints (argv : List String) (env : String → Option String)
    (fs : String → Except OSError (List String)) : List String :=
  module_prints

/-- Externally visible effects a run could in principle perform. -/
inductive Effect where
  | consolePrint : String → Effect
  | fileWrite : String → String → Effect
deriving DecidableEq, Repr

/-- Whether an effect is a file write. -/
def Effect.isWrite : Effect → Bool
  | Effect.consolePrint _ => false
  | Effect.fileWrite _ _ => true

/-- The effect trace of a run of the script: its print calls, in order. -/
def script_trace (argv : List String) (env : String → Option String)
    (fs : String → Except OSError (List String)) : List Effect :=
  (script_prints argv env fs).map Effect.consolePrint

/-- The text a run writes to standard output (print appends a newline). -/
def script_stdout (argv : List String) (env : String → Option String)
    (fs : String → Except OSError (List String)) : String :=
  String.join ((script_prints argv env fs).map (fun s => s ++ "\n"))

/-! Helper lemmas about the order, the sort and the prefix test. -/

theorem lexle_trans : ∀ x y z : List Char,
    lexle x y = true → lexle y z = true → lexle x z = true := by
  intro x
  induction x with
  | nil => intro y z h1 h2; rfl
  | cons a as ih =>
    intro y z h1 h2
    cases y with
    | nil => simp [lexle] at h1
    | cons b bs =>
      cases z with
      | nil => simp [lexle] at h2
      | cons c cs =>
        simp only [lexle] at h1 h2 ⊢
        by_cases hab : a.toNat = b.toNat
        · rw [if_pos hab] at h1
          by_cases hbc : b.toNat = c.toNat
          · rw [if_pos hbc] at h2
            rw [if_pos (hab.trans hbc)]
            exact ih bs cs h1 h2
          · rw [if_neg hbc] at h2
            have h2n : b.toNat < c.toNat := by simpa using h2
            have hac : a.toNat < c.toNat := by omega
            rw [if_neg (Nat.ne_of_lt hac)]
            simpa using hac
        · rw [if_neg hab] at h1
          have h1n : a.toNat < b.toNat := by simpa using h1
          by_cases hbc : b.toNat = c.toNat
          · have hac : a.toNat < c.toNat := by omega
            rw [if_neg (Nat.ne_of_lt hac)]
            simpa using hac
          · rw [if_neg hbc] at h2
            have h2n : b.toNat < c.toNat := by simpa using h2
            have hac : a.toNat < c.toNat := by omega
            rw [if_neg (Nat.ne_of_lt hac)]
            simpa using hac

theorem lexle_total : ∀ x y : List Char, lexle x y = true ∨ lexle y x = true := by
  intro x
  induction x with
  | nil => intro y; left; rfl
  | cons a as ih =>
    intro y
    cases y with
    | nil => right; rfl
    | cons b bs =>
      simp only [lexle]
      by_cases hab : a.toNat = b.toNat
      · rw [if_pos hab, if_pos hab.symm]
        exact ih bs
      · rw [if_neg hab, if_neg (fun h => hab h.symm)]
        simp only [decide_eq_true_eq]
        omega

instance : IsTrans String strleP :=
  ⟨fun a b c h1 h2 => lexle_trans a.data b.data c.data h1 h2⟩

instance : IsTotal String strleP :=
  ⟨fun a b => lexle_total a.data b.data⟩

theorem listFrames_perm (files : List String) (p : String) :
    (listFrames files p).Perm (files.filter (fun f => startswith f p)) :=
  List.perm_insertionSort strleP _

theorem listFrames_sorted (files : List String) (p : String) :
    List.Sorted strleP (listFrames files p) :=
  List.sorted_insertionSort strleP _

theorem mem_listFrames {x : String} {files : List String} {p : String} :
    x ∈ listFrames files p ↔ x ∈ files ∧ startswith x p = true := by
  rw [(listFrames_perm files p).mem_iff, List.mem_filter]

theorem listFrames_eq_nil_iff {files : List String} {p : String} :
    listFrames files p = [] ↔ files.filter (fun f => startswith f p) = [] := by
  constructor
  · intro h
    have hp := listFrames_perm files p
    rw [h] at hp
    exact (hp.symm).eq_nil
  · intro h
    have hp := listFrames_perm files p
    rw [h] at hp
    exact hp.eq_nil

theorem get_frames_ok (files : List String) (path : String) :
    get_frames_from_folder (fun _ => Except.ok files) path =
      Except.ok (listFrames files "stand_",
        if (listFrames files "move_").isEmpty then listFrames files "chase_"
        else listFrames files "move_") := rfl

theorem create_ok_reduce (files : List String) (f d e : String) :
    create_sprite_frames (fun _ => Except.ok files) f d e =
      if ((listFrames files "stand_").isEmpty
          || (if (listFrames files "move_").isEmpty then listFrames files "chase_"
              else listFrames files "move_").isEmpty) then
        (["Warning: Missing frames for " ++ f], Except.ok none)
      else
        ([], Except.ok none) := rfl

theorem create_unfold (fs : String → Except OSError (List String)) (f d e : String) :
    create_sprite_frames fs f d e =
      match get_frames_from_folder fs (pathJoin BASE_PATH f) with
      | Except.error e2 => ([], Except.error e2)
      | Except.ok (stand_frames, move_frames) =>
        if stand_frames.isEmpty || move_frames.isEmpty then
          (["Warning: Missing frames for " ++ f], Except.ok none)
        else
          ([], Except.ok none) := rfl

theorem startswith_disjoint {x p q : String} {a b : Char} {as bs : List Char}
    (hp : p.data = a :: as) (hq : q.data = b :: bs) (hne : a ≠ b)
    (h : startswith x p = true) : startswith x q = false := by
  unfold startswith at h ⊢
  rw [hp] at h
  rw [hq]
  cases hx : x.data with
  | nil => rw [hx] at h; simp [isPrefixList] at h
  | cons c cs =>
    rw [hx] at h
    simp only [isPrefixList, Bool.and_eq_true, beq_iff_eq] at h
    have hbc : b ≠ c := fun hbcEq => hne (h.1 ▸ hbcEq ▸ rfl)
    simp [isPrefixList, hbc]

theorem stand_not_move {x : String} (h : startswith x "stand_" = true) :
    startswith x "move_" = false :=
  startswith_disjoint (p := "stand_") (q := "move_")
    (show ("stand_" : String).data = 's' :: ['t', 'a', 'n', 'd', '_'] from rfl)
    (show ("move_" : String).data = 'm' :: ['o', 'v', 'e', '_'] from rfl)
    (by decide) h

theorem stand_not_chase {x : String} (h : startswith x "stand_" = true) :
    startswith x "chase_" = false :=
  startswith_disjoint (p := "stand_") (q := "chase_")
    (show ("stand_" : String).data = 's' :: ['t', 'a', 'n', 'd', '_'] from rfl)
    (show ("chase_" : String).data = 'c' :: ['h', 'a', 's', 'e', '_'] from rfl)
    (by decide) h

/-! Claim theorems. -/

/-- C1: for every directory listing, get_frames_from_folder returns as
stand list exactly the filenames starting with stand_, sorted
lexicographically, and as move list exactly the filenames starting with
move_, sorted lexicographically, except that when no filename starts with
move_ the move list is instead exactly the filenames starting with
chase_, sorted lexicographically. -/
theorem get_frames_partitions_and_sorts (files : List String) (path : String)
    (s m : List String)
    (h : get_frames_from_folder (fun _ => Except.ok files) path = Except.ok (s, m)) :
    (s.Perm (files.filter (fun f => startswith f "stand_")) ∧ List.Sorted strleP s) ∧
    (if files.filter (fun f => startswith f "move_") = [] then
      m.Perm (files.filter (fun f => startswith f "chase_")) ∧ List.Sorted strleP m
    else
      m.Perm (files.filter (fun f => startswith f "move_")) ∧ List.Sorted strleP m) := by
  rw [get_frames_ok] at h
  simp only [Except.ok.injEq, Prod.mk.injEq] at h
  obtain ⟨hs, hm⟩ := h
  subst hs
  subst hm
  refine ⟨⟨listFrames_perm files "stand_", listFrames_sorted files "stand_"⟩, ?_⟩
  by_cases hc : files.filter (fun f => startswith f "move_") = []
  · rw [if_pos hc]
    have hEmpty : (listFrames files "move_").isEmpty = true := by
      rw [List.isEmpty_iff, listFrames_eq_nil_iff]
      exact hc
    rw [if_pos hEmpty]
    exact ⟨listFrames_perm files "chase_", listFrames_sorted files "chase_"⟩
  · rw [if_neg hc]
    have hne : ¬((listFrames files "move_").isEmpty = true) := by
      rw [List.isEmpty_iff, listFrames_eq_nil_iff]
      exact hc
    rw [if_neg hne]
    exact ⟨listFrames_perm files "move_", listFrames_sorted files "move_"⟩

/-- Witness for C1 at the listing [move_b.png, stand_a.png]. -/
theorem get_frames_partitions_and_sorts_witness :
    ((["stand_a.png"] : List String).Perm
        ((["move_b.png", "stand_a.png"] : List String).filter
          (fun f => startswith f "stand_")) ∧
      List.Sorted strleP ["stand_a.png"]) ∧
    (if (["move_b.png", "stand_a.png"] : List String).filter
          (fun f => startswith f "move_") = [] then
      (["move_b.png"] : List String).Perm
          ((["move_b.png", "stand_a.png"] : List String).filter
            (fun f => startswith f "chase_")) ∧
        List.Sorted strleP ["move_b.png"]
    else
      (["move_b.png"] : List String).Perm
          ((["move_b.png", "stand_a.png"] : List String).filter
            (fun f => startswith f "move_")) ∧
        List.Sorted strleP ["move_b.png"]) :=
  get_frames_partitions_and_sorts ["move_b.png", "stand_a.png"] "p"
    ["stand_a.png"] ["move_b.png"] rfl

/-- C2: for every creature whose folder yields an empty stand list or an
empty post-fallback move list, create_sprite_frames prints exactly the
warning naming the folder and returns None without raising; and the
script run consumes no such result: its prints are the constant
module_prints for every execution context. -/
theorem missing_frames_warns_and_skips (folder_name display_name enum_name : String)
    (files s m : List String) (argv : List String) (env : String → Option String)
    (fs : String → Except OSError (List String))
    (hg : get_frames_from_folder (fun _ => Except.ok files)
        (pathJoin BASE_PATH folder_name) = Except.ok (s, m))
    (he : s = [] ∨ m = []) :
    create_sprite_frames (fun _ => Except.ok files) folder_name display_name enum_name =
      (["Warning: Missing frames for " ++ folder_name], Except.ok none) ∧
    script_prints argv env fs = module_prints := by
  rw [get_frames_ok] at hg
  simp only [Except.ok.injEq, Prod.mk.injEq] at hg
  obtain ⟨hs, hm⟩ := hg
  constructor
  · rw [create_ok_reduce]
    have hC : ((listFrames files "stand_").isEmpty
        || (if (listFrames files "move_").isEmpty then listFrames files "chase_"
            else listFrames files "move_").isEmpty) = true := by
      rcases he with h | h
      · have h0 : listFrames files "stand_" = [] := hs.trans h
        rw [h0]
        rfl
      · have h0 : (if (listFrames files "move_").isEmpty then listFrames files "chase_"
            else listFrames files "move_") = [] := hm.trans h
        rw [h0]
        simp
    rw [if_pos hC]
  · rfl

/-- Witness for C2 at an empty directory listing. -/
theorem missing_frames_warns_and_skips_witness :
    create_sprite_frames (fun _ => Except.ok []) "grizzly" "Grizzly" "GRIZZLY" =
      (["Warning: Missing frames for " ++ "grizzly"], Except.ok none) ∧
    script_prints [] (fun _ => none) (fun _ => Except.ok []) = module_prints :=
  missing_frames_warns_and_skips "grizzly" "Grizzly" "GRIZZLY" [] [] [] []
    (fun _ => none) (fun _ => Except.ok []) rfl (Or.inl rfl)

/-- C3: for every folder_name, display_name, enum_name and every directory
contents, create_sprite_frames returns None; its only possible console
output is the missing-frames warning, so no usable resource text and no
file-writing behavior exists. -/
theorem create_sprite_frames_always_none (files : List String)
    (folder_name display_name enum_name : String) :
    (create_sprite_frames (fun _ => Except.ok files)
        folder_name display_name enum_name).2 = Except.ok none ∧
    ((create_sprite_frames (fun _ => Except.ok files)
        folder_name display_name enum_name).1 = [] ∨
      (create_sprite_frames (fun _ => Except.ok files)
        folder_name display_name enum_name).1 =
        ["Warning: Missing frames for " ++ folder_name]) := by
  rw [create_ok_reduce]
  by_cases hC : ((listFrames files "stand_").isEmpty
      || (if (listFrames files "move_").isEmpty then listFrames files "chase_"
          else listFrames files "move_").isEmpty) = true
  · rw [if_pos hC]
    exact ⟨rfl, Or.inr rfl⟩
  · rw [if_neg hC]
    exact ⟨rfl, Or.inl rfl⟩

/-- C4 counterexample: with every directory empty, every creature (for
instance guard_robot) is missing its frames, yet the executed script
prints no missing-frames warning, and its prints do not change when the
directories do contain frame files: the run lists no directory at all. -/
theorem script_run_never_warns_cex :
    get_frames_from_folder (fun _ => Except.ok []) (pathJoin BASE_PATH "guard_robot") =
      Except.ok ([], []) ∧
    ((script_prints [] (fun _ => none) (fun _ => Except.ok [])).contains
        ("Warning: Missing frames for " ++ "guard_robot")) = false ∧
    script_prints [] (fun _ => none) (fun _ => Except.ok []) =
      script_prints [] (fun _ => none)
        (fun _ => Except.ok ["stand_0.png", "move_0.png"]) := by
  refine ⟨rfl, ?_, rfl⟩
  rfl

/-- C4 amended: when the script runs it enumerates the hard-coded creature
mapping and emits one informational console line per entry after two
notice lines and a header; it lists no directory and prints no
missing-frames warning, the partition-sort-warn behavior living only in
the never-invoked functions. -/
theorem script_run_only_enumerates_mapping (argv : List String)
    (env : String → Option String) (fs fs2 : String → Except OSError (List String)) :
    script_prints argv env fs =
      ["Due to Godot\x27s resource format complexity, SpriteFrames should be created in Godot editor.",
       "However, we can still proceed by updating the global_enums.gd with placeholders.",
       "\nCreatures to add:"] ++
        CREATURES.map (fun c => creatureLine c.1 c.2.1 c.2.2) ∧
    script_prints argv env fs = script_prints argv env fs2 ∧
    (script_prints argv env fs).all (fun l => !(startswith l "Warning")) = true := by
  refine ⟨rfl, rfl, ?_⟩
  rfl

/-- C5: executing the script performs no file write: its effect trace is
exactly the console prints of the human-readable creature list, whatever
the execution context. -/
theorem script_writes_no_files (argv : List String) (env : String → Option String)
    (fs : String → Except OSError (List String)) :
    script_trace argv env fs = module_prints.map Effect.consolePrint ∧
    (script_trace argv env fs).any Effect.isWrite = false := by
  refine ⟨rfl, ?_⟩
  rfl

/-- C6: an error raised by the directory listing propagates unchanged out
of get_frames_from_folder and out of create_sprite_frames, with no print
and no caught-and-reported branch. -/
theorem listing_error_propagates (fs : String → Except OSError (List String))
    (err : OSError) :
    (∀ path, fs path = Except.error err →
      get_frames_from_folder fs path = Except.error err) ∧
    (∀ folder_name display_name enum_name,
      fs (pathJoin BASE_PATH folder_name) = Except.error err →
      create_sprite_frames fs folder_name display_name enum_name =
        ([], Except.error err)) := by
  constructor
  · intro path h
    unfold get_frames_from_folder
    rw [h]
  · intro f d e h
    have hg : get_frames_from_folder fs (pathJoin BASE_PATH f) = Except.error err := by
      unfold get_frames_from_folder
      rw [h]
    rw [create_unfold, hg]

/-- Witness for C6: a missing base directory error propagates out of both
functions. -/
theorem listing_error_propagates_witness :
    get_frames_from_folder (fun _ => Except.error (OSError.fileNotFound "base")) "p" =
      Except.error (OSError.fileNotFound "base") ∧
    create_sprite_frames (fun _ => Except.error (OSError.fileNotFound "base"))
        "guard_robot" "Guard Robot" "GUARD_ROBOT" =
      ([], Except.error (OSError.fileNotFound "base")) :=
  ⟨(listing_error_propagates (fun _ => Except.error (OSError.fileNotFound "base"))
      (OSError.fileNotFound "base")).1 "p" rfl,
   (listing_error_propagates (fun _ => Except.error (OSError.fileNotFound "base"))
      (OSError.fileNotFound "base")).2 "guard_robot" "Guard Robot" "GUARD_ROBOT" rfl⟩

/-- C7: the listing [stand_1.png, stand_0.png, chase_a.png] yields
stand = [stand_0.png, stand_1.png] and move = [chase_a.png] via the
chase_ fallback; and for any listing with no filename starting with
stand_, create_sprite_frames warns and returns None regardless of the
move-frame contents. -/
theorem example_listing_and_no_stand_skip (folder_name display_name enum_name : String)
    (files : List String)
    (h : files.filter (fun f => startswith f "stand_") = []) :
    get_frames_from_folder
        (fun _ => Except.ok ["stand_1.png", "stand_0.png", "chase_a.png"])
        (pathJoin BASE_PATH "grizzly") =
      Except.ok (["stand_0.png", "stand_1.png"], ["chase_a.png"]) ∧
    create_sprite_frames (fun _ => Except.ok files)
        folder_name display_name enum_name =
      (["Warning: Missing frames for " ++ folder_name], Except.ok none) := by
  constructor
  · rfl
  · rw [create_ok_reduce]
    have h0 : listFrames files "stand_" = [] := listFrames_eq_nil_iff.mpr h
    rw [h0]
    simp

/-- Witness for C7 at a listing holding only a move frame. -/
theorem example_listing_and_no_stand_skip_witness :
    get_frames_from_folder
        (fun _ => Except.ok ["stand_1.png", "stand_0.png", "chase_a.png"])
        (pathJoin BASE_PATH "grizzly") =
      Except.ok (["stand_0.png", "stand_1.png"], ["chase_a.png"]) ∧
    create_sprite_frames (fun _ => Except.ok ["move_a.png"])
        "toy_trojan" "Toy Trojan" "TOY_TROJAN" =
      (["Warning: Missing frames for " ++ "toy_trojan"], Except.ok none) :=
  example_listing_and_no_stand_skip "toy_trojan" "Toy Trojan" "TOY_TROJAN"
    ["move_a.png"] rfl

/-- C8: the executed standard-output text is a deterministic function of
the hard-coded constants: any two executions, whatever their command-line
arguments, environment and filesystem, write the identical text, namely
the join of module_prints. -/
theorem script_output_independent_of_context (argv argv2 : List String)
    (env env2 : String → Option String)
    (fs fs2 : String → Except OSError (List String)) :
    script_stdout argv env fs = script_stdout argv2 env2 fs2 ∧
    script_stdout argv env fs =
      String.join (module_prints.map (fun s => s ++ "\n")) := by
  exact ⟨rfl, rfl⟩

/-- C9: the two lists returned by get_frames_from_folder are disjoint:
every stand entry starts with stand_, every move entry starts with move_
or, exactly when no filename starts with move_, with chase_, and no
filename lies in both lists. -/
theorem frame_lists_disjoint (files : List String) (path : String)
    (s m : List String)
    (h : get_frames_from_folder (fun _ => Except.ok files) path = Except.ok (s, m)) :
    s.all (fun x => startswith x "stand_") = true ∧
    (m.all (fun x => startswith x "move_") = true ∨
      (files.filter (fun f => startswith f "move_") = [] ∧
        m.all (fun x => startswith x "chase_") = true)) ∧
    s.all (fun x => !(decide (x ∈ m))) = true := by
  rw [get_frames_ok] at h
  simp only [Except.ok.injEq, Prod.mk.injEq] at h
  obtain ⟨hs, hm⟩ := h
  subst hs
  subst hm
  refine ⟨List.all_eq_true.mpr (fun x hx => (mem_listFrames.mp hx).2), ?_, ?_⟩
  · by_cases hc : (listFrames files "move_").isEmpty = true
    · right
      constructor
      · exact listFrames_eq_nil_iff.mp (List.isEmpty_iff.mp hc)
      · rw [if_pos hc]
        exact List.all_eq_true.mpr (fun x hx => (mem_listFrames.mp hx).2)
    · left
      rw [if_neg hc]
      exact List.all_eq_true.mpr (fun x hx => (mem_listFrames.mp hx).2)
  · apply List.all_eq_true.mpr
    intro x hx
    have hxs : startswith x "stand_" = true := (mem_listFrames.mp hx).2
    rw [Bool.not_eq_true', decide_eq_false_iff_not]
    intro hxm
    by_cases hc : (listFrames files "move_").isEmpty = true
    · rw [if_pos hc] at hxm
      have hchase : startswith x "chase_" = true := (mem_listFrames.mp hxm).2
      rw [stand_not_chase hxs] at hchase
      simp at hchase
    · rw [if_neg hc] at hxm
      have hmove : startswith x "move_" = true := (mem_listFrames.mp hxm).2
      rw [stand_not_move hxs] at hmove
      simp at hmove

/-- Witness for C9 at the listing [stand_a.png, move_b.png]. -/
theorem frame_lists_disjoint_witness :
    (["stand_a.png"] : List String).all (fun x => startswith x "stand_") = true ∧
    ((["move_b.png"] : List String).all (fun x => startswith x "move_") = true ∨
      ((["stand_a.png", "move_b.png"] : List String).filter
          (fun f => startswith f "move_") = [] ∧
        (["move_b.png"] : List String).all (fun x => startswith x "chase_") = true)) ∧
    (["stand_a.png"] : List String).all
      (fun x => !(decide (x ∈ (["move_b.png"] : List String)))) = true :=
  frame_lists_disjoint ["stand_a.png", "move_b.png"] "q"
    ["stand_a.png"] ["move_b.png"] rfl

/-- C10: every execution prints, after the two notice lines and the header
line, exactly one line per entry of the 17-entry creature table, in
insertion order, formatted as the display name, the enum name in
parentheses, and the joined source path. -/
theorem script_prints_exact_lines (argv : List String)
    (env : String → Option String) (fs : String → Except OSError (List String)) :
    script_prints argv env fs =
      ["Due to Godot\x27s resource format complexity, SpriteFrames should be created in Godot editor.",
       "However, we can still proceed by updating the global_enums.gd with placeholders.",
       "\nCreatures to add:",
       "  - Guard Robot (GUARD_ROBOT): C:/Users/purem/OneDrive/Documents/new-game-project/assets/sprites/creatures/guard_robot",
       "  - Fire Pyrope (FIRE_PYROPE): C:/Users/purem/OneDrive/Documents/new-game-project/assets/sprites/creatures/fire_pyrope",
       "  - Illusionary Raccoon (ILLUSIONARY_RACCOON): C:/Users/purem/OneDrive/Documents/new-game-project/assets/sprites/creatures/illusionary_raccoon",
       "  - Ore Muncher (ORE_MUNCHER): C:/Users/purem/OneDrive/Documents/new-game-project/assets/sprites/creatures/ore_muncher",
       "  - Neon Bat (NEON_BAT): C:/Users/purem/OneDrive/Documents/new-game-project/assets/sprites/creatures/neon_bat",
       "  - Toy Trojan (TOY_TROJAN): C:/Users/purem/OneDrive/Documents/new-game-project/assets/sprites/creatures/toy_trojan",
       "  - Robo (ROBO): C:/Users/purem/OneDrive/Documents/new-game-project/assets/sprites/creatures/robo",
       "  - Froscola (FROSCOLA): C:/Users/purem/OneDrive/Documents/new-game-project/assets/sprites/creatures/froscola",
       "  - Grizzly (GRIZZLY): C:/Users/purem/OneDrive/Documents/new-game-project/assets/sprites/creatures/grizzly",
       "  - Blazin\x27 Sparkinstone Bugs (BLAZIN_SPARKINSTONE_BUGS): C:/Users/purem/OneDrive/Documents/new-game-project/assets/sprites/creatures/blazin_sparkinstone_bugs",
       "  - Stoplight Ghost (STOPLIGHT_GHOST): C:/Users/purem/OneDrive/Documents/new-game-project/assets/sprites/creatures/stoplight_ghost",
       "  - Haunted River Rock (HAUNTED_RIVER_ROCK): C:/Users/purem/OneDrive/Documents/new-game-project/assets/sprites/creatures/haunted_river_rock",
       "  - Hedgehog (HEDGEHOG): C:/Users/purem/OneDrive/Documents/new-game-project/assets/sprites/creatures/hedgehog",
       "  - Delinquent Chick (DELINQUENT_CHICK): C:/Users/purem/OneDrive/Documents/new-game-project/assets/sprites/creatures/delinquent_chick",
       "  - Ooze Waste (OOZE_WASTE): C:/Users/purem/OneDrive/Documents/new-game-project/assets/sprites/creatures/ooze_waste",
       "  - Krip (KRIP): C:/Users/purem/OneDrive/Documents/new-game-project/assets/sprites/creatures/krip",
       "  - Grave Robber\x27s Hunting Dog (GRAVE_ROBBER_HUNTING_DOG): C:/Users/purem/OneDrive/Documents/new-game-project/assets/sprites/creatures/grave_robber_hunting_dog"] ∧
    CREATURES.length = 17 ∧
    script_prints argv env fs =
      ["Due to Godot\x27s resource format complexity, SpriteFrames should be created in Godot editor.",
       "However, we can still proceed by updating the global_enums.gd with placeholders.",
       "\nCreatures to add:"] ++
        CREATURES.map (fun c => creatureLine c.1 c.2.1 c.2.2) := by
  exact ⟨rfl, rfl, rfl⟩
